import Mathlib

/-!
Shallow embedding of the criteria-driven document evaluation pipeline of
`backend/app/services/evaluation_service.py` (class `EvaluationService`),
together with the catalog in `backend/app/config/criteria_mapping.py` and
the `CriteriaInfo` dataclass of `backend/app/models/criteria_info.py`.

Python strings are modelled as Lean `String`, Python floats as `ℚ`
(all score arithmetic in the source uses small decimal constants that are
exact in this range), Python `None` as `Option`, and raised exceptions as
an explicit `PyResult` sum.  The asynchronous oracle (Azure OpenAI) call
needs no model: in this revision of the source it is unreachable (the
criteria lookup in `_evaluate_single_criteria` raises before it, see
`evaluate_single_criteria` below).
-/

set_option maxRecDepth 100000

namespace StoryEval

/-! ## Python string primitives

`pySplitChars` is Python `str.split(sep)` for a non-empty separator
(left-to-right scan, non-overlapping occurrences), over code points.
`charIdxOf` is Python `str.find` (`some i` instead of `-1`).
-/

def pySplitCharsFuel (sep : List Char) : Nat → List Char → List (List Char)
  | _, [] => [[]]
  | 0, s => [s]
  | fuel + 1, c :: t =>
    if sep ≠ [] ∧ sep.isPrefixOf (c :: t) then
      [] :: pySplitCharsFuel sep fuel (t.drop (sep.length - 1))
    else
      match pySplitCharsFuel sep fuel t with
      | [] => [[c]]
      | h :: r => (c :: h) :: r

/-- Every recursive step of `pySplitCharsFuel` removes at least one
character, so `s.length` fuel always suffices and the fuel-exhaustion
branch is unreachable. -/
def pySplitChars (sep s : List Char) : List (List Char) :=
  pySplitCharsFuel sep s.length s

/-- Python `s.split(sep)` (the source only ever splits on non-empty
separators). -/
def pySplit (s sep : String) : List String :=
  (pySplitChars sep.toList s.toList).map String.mk

/-- Index of the first occurrence of `needle` in `hay` (Python `str.find`,
`none` for `-1`), counting code points like Python indices do. -/
def charIdxOf : List Char → List Char → Option Nat
  | [], needle => if needle = [] then some 0 else none
  | c :: t, needle =>
    if needle.isPrefixOf (c :: t) then some 0
    else (charIdxOf t needle).map (· + 1)

/-- Python `needle in hay` for strings. -/
def pyContains (hay needle : String) : Bool :=
  (charIdxOf hay.toList needle.toList).isSome

/-- Python `str.find` on `String`. -/
def pyFind (hay needle : String) : Option Nat :=
  charIdxOf hay.toList needle.toList

/-- Python `str.strip()` with no argument: remove leading and trailing
whitespace (every boundary character the embedded strings ever carry is
ASCII whitespace). -/
def pyStrip (s : String) : String :=
  String.mk (((s.toList.dropWhile Char.isWhitespace).reverse.dropWhile
    Char.isWhitespace).reverse)

/-- Python `s.strip("- ")`: remove leading and trailing `-` and space
characters. -/
def stripDashSpace (s : String) : String :=
  String.mk (((s.toList.dropWhile fun c => c == '-' || c == ' ').reverse.dropWhile
    fun c => c == '-' || c == ' ').reverse)

/-- Round half to even on an exact rational, as Python `round` does on the
decimal value. -/
def roundHalfEven (q : ℚ) : ℤ :=
  let f : ℤ := ⌊q⌋
  let r : ℚ := q - f
  if r < 1/2 then f
  else if 1/2 < r then f + 1
  else if f % 2 = 0 then f else f + 1

/-- Python `round(x, 1)`. -/
def pyRound1 (q : ℚ) : ℚ :=
  (roundHalfEven (q * 10) : ℚ) / 10

/-- Stable insertion step for `sortedByPriority` (Python `sorted` is
stable; the inserted element precedes later elements with an equal key). -/
def insertByLe {α : Type} (le : α → α → Bool) (a : α) : List α → List α
  | [] => [a]
  | b :: t => if le a b then a :: b :: t else b :: insertByLe le a t

/-- Stable sort (Python `sorted(xs, key=...)`). -/
def sortByLe {α : Type} (le : α → α → Bool) : List α → List α
  | [] => []
  | a :: t => insertByLe le a (sortByLe le t)

/-! ## Data model -/

/-- `backend/app/models/criteria_info.py`, dataclass `CriteriaInfo`.
Its fields are exactly the ones below; in particular it declares **no**
`applicable_to` field. `criteria_weights` is an association list standing
for the Python dict. -/
structure CriteriaInfo where
  id : String
  display_name : String
  priority : Nat
  criteria_ids : List String
  max_score : ℚ
  criteria_weights : List (String × ℚ)
deriving Repr, DecidableEq

/-- `CriteriaInfo.__post_init__`: when `criteria_weights` is empty, install
the uniform weight `1 / len(criteria_ids)` for every criterion. -/
def mkCriteriaInfo (id display_name : String) (priority : Nat)
    (criteria_ids : List String) (max_score : ℚ) : CriteriaInfo :=
  let weight : ℚ := if criteria_ids = [] then 0 else 1 / criteria_ids.length
  { id := id, display_name := display_name, priority := priority,
    criteria_ids := criteria_ids, max_score := max_score,
    criteria_weights := criteria_ids.map fun c => (c, weight) }

/-- The derived document view built by `evaluate_document` and threaded
through the pipeline (Python passes a dict with keys `title`, `summary`,
`story`, `body`; the nested `structure` entry is never read by any
operation embedded here). -/
structure DocumentStructure where
  title : String
  summary : String
  story : String
  body : String
deriving Repr, DecidableEq

/-- `backend/app/models/evaluation.py` `EvaluationResult` as constructed by
the evaluation service (the service also passes `target_text` and
`position` keyword arguments at every construction site; they are kept
here as fields so the parser's output is fully recorded). -/
structure EvaluationResult where
  criteria_id : String
  category : String
  score : ℚ
  feedback : String
  target_text : String
  position : Option (Nat × Nat)
deriving Repr, DecidableEq

/-- `backend/app/models/evaluation_result.py` `Comment`. -/
structure Comment where
  criteria_id : String
  content : String
  score : ℚ
deriving Repr, DecidableEq

/-- `backend/app/models/evaluation_result.py` `LocationComments`. -/
structure LocationComments where
  location : String
  comments : List Comment
deriving Repr, DecidableEq

/-- One entry of the report's `evaluations` list (the dict built at
`evaluation_service.py` lines 175-181). -/
structure EvaluationData where
  categoryId : String
  criteriaId : String
  score : ℚ
  feedback : String
  location : String
deriving Repr, DecidableEq

/-- One entry of the report's `categories` list (lines 162-166). -/
structure CategoryData where
  id : String
  name : String
  priority : Nat
deriving Repr, DecidableEq

/-- One entry of the report's `categoryScores` list, as returned by
`_calculate_category_score` (`score` is on the 0-100 scale there). -/
structure CategoryScoreData where
  categoryId : String
  categoryName : String
  score : ℚ
  judgment : String
deriving Repr, DecidableEq

/-- The dictionary returned by `evaluate_document`. -/
structure Report where
  evaluations : List EvaluationData
  categories : List CategoryData
  categoryScores : List CategoryScoreData
  totalScore : ℚ
  totalJudgment : String
  error : Option String
deriving Repr, DecidableEq

/-- Result of a Python call that can raise: `ok` is a normal return,
`exn` a propagated exception. -/
inductive PyResult (α : Type) where
  | ok (a : α)
  | exn (msg : String)
deriving Repr, DecidableEq

/-! ## Criteria catalog (`backend/app/config/criteria_mapping.py`) -/

def CRITERIA_MAPPING : List (String × CriteriaInfo) :=
  [("FULL_TEXT_RHETORIC",
      mkCriteriaInfo "FULL_TEXT_RHETORIC" "全文修辞表現" 1
        ["最低限の修辞表現", "修辞表現"] 20),
   ("SUMMARY_LOGIC_FLOW",
      mkCriteriaInfo "SUMMARY_LOGIC_FLOW" "サマリーの論理展開" 2
        ["前回の振り返りの有無", "SCQA有無", "転換の接続詞の重複利用"] 25),
   ("SUMMARY_INTERNAL_LOGIC",
      mkCriteriaInfo "SUMMARY_INTERNAL_LOGIC" "サマリー単体の論理" 3
        ["接続詞の妥当性", "サマリーレイヤーに不適な接続詞の有無", "直前のサマリーとの論理的連続性"] 15),
   ("SUMMARY_STORY_LOGIC",
      mkCriteriaInfo "SUMMARY_STORY_LOGIC" "サマリーとストーリー間の論理" 4
        ["メッセージレイヤーの逐次的展開性", "逐次的展開の評価", "根拠s, 詳細s⇔主張"] 20),
   ("STORY_INTERNAL_LOGIC",
      mkCriteriaInfo "STORY_INTERNAL_LOGIC" "ストーリー単体の論理" 5
        ["接続詞の適切性", "転換の接続詞の二重利用", "無駄なナンバリングの回避"] 10),
   ("DETAIL_RHETORIC",
      mkCriteriaInfo "DETAIL_RHETORIC" "細部の修辞表現" 6
        ["メッセージとボディの論理的整合性"] 10)]

/-! ## Scope text selector (`_get_evaluation_text`, lines 515-574)

The Python bodies are triple-quoted f-strings; the 12-space indentation of
every continuation line and the 12-space-only separator lines are part of
the literal and are reproduced verbatim below.  The whole result is
stripped on return. -/

def get_evaluation_text (document_structure : DocumentStructure)
    (applicable_to : List String) : String :=
  let target_text :=
    if "FULL_DOCUMENT" ∈ applicable_to then
      "\n            【サマリー】\n            " ++ document_structure.summary ++
      "\n            \n            【ストーリー】\n            " ++ document_structure.story ++
      "\n            \n            【本文】\n            " ++ document_structure.body ++
      "\n            "
    else if "SUMMARY_ONLY" ∈ applicable_to then
      "\n            【サマリー】\n            " ++ document_structure.summary ++
      "\n            "
    else if "SUMMARY_AND_STORY" ∈ applicable_to then
      "\n            【サマリー】\n            " ++ document_structure.summary ++
      "\n            \n            【ストーリー】\n            " ++ document_structure.story ++
      "\n            \n            【文章構造の関連性】\n            サマリーとストーリーの各段落は、同じ番号の段落同士が対応関係にあります。\n            "
    else if "STORY_AND_BODY" ∈ applicable_to then
      "\n            【ストーリー】\n            " ++ document_structure.story ++
      "\n            \n            【本文】\n            " ++ document_structure.body ++
      "\n            \n            【文章構造の関連性】\n            ストーリーとボディの各段落は、同じ番号の段落同士が対応関係にあります。\n            "
    else ""
  pyStrip target_text

/-! ## Position lookup (`_find_text_position`, lines 576-626) -/

def find_text_position (target_text : String)
    (document_structure : DocumentStructure) : Option (Nat × Nat) :=
  if target_text = "" then none
  else
    let summary := pyStrip document_structure.summary
    let story := pyStrip document_structure.story
    let body := pyStrip document_structure.body
    let posSummary := if summary ≠ "" then pyFind summary target_text else none
    match posSummary with
    | some start_pos => some (start_pos, start_pos + target_text.length)
    | none =>
      let current1 := if summary ≠ "" then summary.length + 2 else 0
      let posStory := if story ≠ "" then pyFind story target_text else none
      match posStory with
      | some start_pos =>
          some (current1 + start_pos, current1 + start_pos + target_text.length)
      | none =>
        let current2 := current1 + (if story ≠ "" then story.length + 2 else 0)
        let posBody := if body ≠ "" then pyFind body target_text else none
        match posBody with
        | some start_pos =>
            some (current2 + start_pos, current2 + start_pos + target_text.length)
        | none => none

/-! ## Response parser

`_parse_evaluation_text` is defined twice in class `EvaluationService`.
`parse_evaluation_text` below is the first, full definition
(lines 660-786); `parse_evaluation_text_deployed` is the second definition
(lines 930-932), whose body is `pass` and therefore returns `None` — in a
Python class body the later definition shadows the earlier one, so the
deployed attribute is the stub. -/

/-- The severity deduction weights of the first `_parse_evaluation_text`
(line 745): `issue_weights = {重大: 0.6, 中程度: 0.3, 軽微: 0.1}`.
The parser only ever looks up those three keys. -/
def issueWeight (severity : String) : ℚ :=
  if severity = "重大" then 6/10
  else if severity = "軽微" then 1/10
  else 3/10

/-- Processing of one `---`-separated section (lines 702-760). -/
def parseSection (s criteria_id : String)
    (document_structure : DocumentStructure) : EvaluationResult :=
  let target_text :=
    if pyContains s "対象文：" then
      pyStrip ((pySplit ((pySplit s "対象文：").getD 1 "") "\n").headD "")
    else ""
  let severity :=
    if pyContains s "問題あり：" then
      let problem_line :=
        pyStrip ((pySplit ((pySplit s "問題あり：").getD 1 "") "\n").headD "")
      if pyContains problem_line "重大" then "重大"
      else if pyContains problem_line "軽微" then "軽微"
      else "中程度"
    else "中程度"
  let feedback_parts1 :=
    if pyContains s "問題あり：" then
      let problem_summary :=
        pyStrip ((pySplit ((pySplit s "問題あり：").getD 1 "") "\n").headD "")
      ["【" ++ severity ++ "】" ++ problem_summary]
    else []
  let feedback_parts2 :=
    if pyContains s "問題点：" then
      let pointsText :=
        ((pySplit ((pySplit s "問題点：").getD 1 "") "改善提案：").headD "")
      let points := (pySplit pointsText "\n").filterMap fun p =>
        if pyStrip p ≠ "" ∧ stripDashSpace p ≠ "" then
          some (pyStrip (stripDashSpace p))
        else none
      if points ≠ [] then "【問題点】" :: points else []
    else []
  let feedback_parts3 :=
    if pyContains s "改善提案：" then
      let sugText :=
        ((pySplit ((pySplit s "改善提案：").getD 1 "") "---").headD "")
      let suggestions := (pySplit sugText "\n").filterMap fun p =>
        if pyStrip p ≠ "" ∧ stripDashSpace p ≠ "" then
          some (pyStrip (stripDashSpace p))
        else none
      if suggestions ≠ [] then "【改善提案】" :: suggestions else []
    else []
  let feedback_parts := feedback_parts1 ++ feedback_parts2 ++ feedback_parts3
  let score : ℚ := max 0 (1 - issueWeight severity)
  let position :=
    if target_text ≠ "" then find_text_position target_text document_structure
    else none
  { criteria_id := criteria_id, category := criteria_id, score := score,
    feedback := if feedback_parts ≠ [] then String.intercalate "\n" feedback_parts
                else "問題は見つかりませんでした",
    target_text := target_text, position := position }

/-- First definition of `_parse_evaluation_text` (lines 660-786).  The
`priority` and `applicable_to` parameters are accepted but unused, as in
the source.  Nothing in the body can raise, so the surrounding
`try/except` is inert and the function is total. -/
def parse_evaluation_text (evaluation_text criteria_id : String)
    (priority : Nat) (applicable_to : List String)
    (document_structure : DocumentStructure) : List EvaluationResult :=
  if pyContains evaluation_text "問題なし" then
    [{ criteria_id := criteria_id, category := criteria_id, score := 1,
       feedback := "• 問題は見つかりませんでした\n• 評価基準を満たしています",
       target_text := "", position := none }]
  else
    let sections :=
      ((pySplit evaluation_text "---").map pyStrip).filter (· ≠ "")
    if sections = [] then
      [{ criteria_id := criteria_id, category := criteria_id, score := 1/2,
         feedback := "• 評価結果が不明確です\n• 該当箇所の評価を再度実行してください",
         target_text := "", position := none }]
    else
      let results := sections.map
        fun s => parseSection s criteria_id document_structure
      if results = [] then
        [{ criteria_id := criteria_id, category := criteria_id, score := 1/2,
           feedback := "• 評価結果を生成できませんでした\n• 該当箇所の評価を再度実行してください",
           target_text := "", position := none }]
      else results

/-- Second definition of `_parse_evaluation_text` (lines 930-932): its body
is `pass`, so it returns `None` for every input.  Because it appears later
in the same class body it shadows the full parser above, and this is the
method the deployed class actually exposes. -/
def parse_evaluation_text_deployed (evaluation_text criteria_id : String)
    (priority : Nat) (applicable_to : List String)
    (document_structure : DocumentStructure) : Option (List EvaluationResult) :=
  none

/-! ## Per-criterion evaluation (`_evaluate_single_criteria`, lines 374-513) -/

/-- `_evaluate_single_criteria` (lines 374-513).  The first statement of
its `try` block, the catalog lookup
`next((c for c in EVALUATION_CRITERIA if c['id'] == criteria_id), None)`,
raises `KeyError` on the very first element: every entry of
`EVALUATION_CRITERIA` in `prompt_template/prompt.py` (lines 590-711)
carries the keys `name`, `description`, `max_score`, `priority`,
`applicable_to` and `prompt`, and none carries `id`.  (Even past that
point, `EVALUATION_PROMPT_TEMPLATE.format(criteria_name=...,
criteria_description=..., target_text=...)` would raise `KeyError` for the
template's `{description}` placeholder, whose names are `description`,
`target_type`, `name` and `text`.)  The exception is caught by the
method's outer `except` (lines 504-513), so every call returns this single
score-0.0 degraded result before any oracle interaction: the oracle call,
the response checks and the (shadowed) parser are unreachable. -/
def evaluate_single_criteria (criteria_id : String)
    (document_structure : DocumentStructure) : List EvaluationResult :=
  [{ criteria_id := criteria_id, category := criteria_id, score := 0,
     feedback := "• 評価中にエラーが発生しました\n• 該当箇所の評価を再度実行してください",
     target_text := "", position := none }]

/-! ## Category evaluation (`_evaluate_category`, lines 228-359) -/

/-- Lines 288-310: append a comment to the first `LocationComments` whose
`location` equals `category_id` (Python mutates the object found by
`next(...)`), or start a new one at the end of the list. -/
def addComment (locs : List LocationComments) (category_id : String)
    (c : Comment) : List LocationComments :=
  if locs.any fun lc => lc.location = category_id then
    match locs with
    | [] => []
    | lc :: rest =>
      if lc.location = category_id then
        { lc with comments := lc.comments ++ [c] } :: rest
      else lc :: addComment rest category_id c
  else locs ++ [{ location := category_id, comments := [c] }]

/-- The body of `_evaluate_category` from line 236 on (everything below the
debug logging).  The read of the non-existent `category_info.applicable_to`
attribute on line 234/240 is resolved here by the explicit `applicable_to`
parameter so that the behaviour the block would have can be stated; the
deployed method is `evaluate_category_deployed` below.  `evalCriteria`
stands for the awaited `_evaluate_single_criteria` call, which catches all
its exceptions internally and always returns a list, so the per-criterion
`except` branch of the source loop is unreachable.  The two
`category_info.criteria_ids[0]` reads raise `IndexError` when
`criteria_ids` is empty; the `except` at line 350 catches it but its own
return indexes `[0]` again, so the exception propagates out of the method
(`.exn` here) and the caller's category loop skips the category. -/
def evaluate_category_body (category_id : String) (category_info : CriteriaInfo)
    (applicable_to : List String) (document_structure : DocumentStructure)
    (evalCriteria : String → DocumentStructure → List EvaluationResult) :
    PyResult (List LocationComments) :=
  let target_text := get_evaluation_text document_structure applicable_to
  if target_text = "" then
    match category_info.criteria_ids with
    | [] => .exn "IndexError: list index out of range"
    | c0 :: _ =>
      .ok [{ location := category_id,
             comments := [{ criteria_id := c0,
                            content := "• 評価対象テキストが空です\n• 文書の内容を確認してください",
                            score := 0 }] }]
  else
    let evaluation_doc_structure : DocumentStructure :=
      { title := document_structure.title, summary := document_structure.summary,
        story := document_structure.story, body := target_text }
    let location_comments := category_info.criteria_ids.foldl
      (fun location_comments criteria_id =>
        let evaluations := evalCriteria criteria_id evaluation_doc_structure
        if evaluations ≠ [] then
          evaluations.foldl
            (fun location_comments evaluation =>
              addComment location_comments category_id
                { criteria_id := criteria_id, content := evaluation.feedback,
                  score := evaluation.score })
            location_comments
        else
          location_comments ++
            [{ location := category_id,
               comments := [{ criteria_id := criteria_id,
                              content := "• 評価結果が生成できませんでした\n• 該当箇所の評価を再度実行してください",
                              score := 0 }] }])
      []
    if location_comments = [] then
      match category_info.criteria_ids with
      | [] => .exn "IndexError: list index out of range"
      | c0 :: _ =>
        .ok [{ location := category_id,
               comments := [{ criteria_id := c0,
                              content := "• 評価結果が生成できませんでした\n• 該当箇所の評価を再度実行してください",
                              score := 0 }] }]
    else .ok location_comments

/-- The deployed `_evaluate_category` (lines 228-359).  Before its `try`
block it evaluates `category_info.applicable_to` (line 234), but the
`CriteriaInfo` dataclass declares no such attribute, so every call raises
`AttributeError` and none of `evaluate_category_body` is ever reached. -/
def evaluate_category_deployed (category_id : String)
    (category_info : CriteriaInfo) (document_structure : DocumentStructure) :
    PyResult (List LocationComments) :=
  .exn "AttributeError: CriteriaInfo object has no attribute applicable_to"

/-- Lines 170-183 of `evaluate_document`: flatten `LocationComments` into
the report's per-evaluation dicts. -/
def evaluationsOfLocations (category_id : String)
    (locations : List LocationComments) : List EvaluationData :=
  locations.flatMap fun location => location.comments.map fun comment =>
    { categoryId := category_id, criteriaId := comment.criteria_id,
      score := comment.score, feedback := comment.content,
      location := location.location }

/-! ## Aggregation -/

/-- `_calculate_category_score` (lines 857-898). -/
def calculate_category_score (evaluations : List EvaluationData)
    (category_info : CriteriaInfo) : CategoryScoreData :=
  if evaluations = [] then
    { categoryId := category_info.id, categoryName := category_info.display_name,
      score := 0, judgment := "NG" }
  else
    let total_weight := (evaluations.map fun e =>
      ((category_info.criteria_weights.lookup e.criteriaId).getD 1)).sum
    let weighted_score := (evaluations.map fun e =>
      e.score * ((category_info.criteria_weights.lookup e.criteriaId).getD 1)).sum
    let final_score := if 0 < total_weight then weighted_score / total_weight else 0
    { categoryId := category_info.id, categoryName := category_info.display_name,
      score := pyRound1 (final_score * 100),
      judgment := if 8/10 ≤ final_score then "OK" else "NG" }

/-- The hard-coded category weight table of `calculate_average_score`
(lines 807-814). -/
def category_weights : List (String × ℚ) :=
  [("FULL_TEXT_RHETORIC", 1), ("SUMMARY_LOGIC_FLOW", 12/10),
   ("SUMMARY_INTERNAL_LOGIC", 11/10), ("SUMMARY_STORY_LOGIC", 12/10),
   ("STORY_INTERNAL_LOGIC", 11/10), ("DETAIL_RHETORIC", 8/10)]

/-- `category_weights.get(category_id, 1.0)`. -/
def categoryWeight (category_id : String) : ℚ :=
  (category_weights.lookup category_id).getD 1

/-- Lines 820-830: fold one evaluation into the per-category
`(category_scores, category_counts)` dicts, which are kept here as one
insertion-ordered association list `categoryId ↦ (sum, count)`. -/
def addScoreEntry : List (String × ℚ × Nat) → String → ℚ →
    List (String × ℚ × Nat)
  | [], category_id, score => [(category_id, score, 1)]
  | (c, total, count) :: rest, category_id, score =>
    if c = category_id then (c, total + score, count + 1) :: rest
    else (c, total, count) :: addScoreEntry rest category_id score

/-- `calculate_average_score` (lines 788-855).  Every recorded score is a
number, so the `isinstance` filter keeps all entries, and the body never
raises. -/
def calculate_average_score (evaluations : List EvaluationData) : ℚ :=
  if evaluations = [] then 0
  else
    let groups := evaluations.foldl
      (fun acc e => addScoreEntry acc e.categoryId e.score) []
    let valid := groups.filter fun g => 0 < g.2.2
    let weighted_scores := valid.map fun g =>
      (g.2.1 / (g.2.2 : ℚ)) * categoryWeight g.1
    let total_weight := (valid.map fun g => categoryWeight g.1).sum
    if 0 < total_weight then
      min (max (weighted_scores.sum / total_weight) 0) 1
    else 0

/-! ## Document evaluation (`evaluate_document`, lines 61-226) -/

/-- Step of the per-category loop (lines 147-201).  An exception escaping
`_evaluate_category` is caught by the loop's `except` clause and the
category is skipped (`continue`). -/
def documentLoopStep (document_structure : DocumentStructure)
    (result : Report) (entry : String × CriteriaInfo) : Report :=
  match evaluate_category_deployed entry.1 entry.2 document_structure with
  | .exn _ => result
  | .ok locations =>
    let category_data : CategoryData :=
      { id := entry.1, name := entry.2.display_name, priority := entry.2.priority }
    let category_evaluations := evaluationsOfLocations entry.1 locations
    { result with
      categories := result.categories ++ [category_data]
      evaluations := result.evaluations ++ category_evaluations
      categoryScores := result.categoryScores ++
        [calculate_category_score category_evaluations entry.2] }

/-- `evaluate_document` for string inputs (the `isinstance` guards on
`full_text`, `title` and `paragraphs` are satisfied by the types). -/
def evaluate_document (full_text summary : String) (paragraphs : List String)
    (title : String) : Report :=
  if pyStrip full_text = "" ∨ pyStrip title = "" then
    { evaluations := [], categories := [], categoryScores := [],
      totalScore := 0, totalJudgment := "NG",
      error := some "空の文書またはタイトルは評価できません" }
  else
    let document_structure : DocumentStructure :=
      { title := pyStrip title, summary := pyStrip summary,
        story := String.intercalate "\n"
          ((paragraphs.filter fun p => pyStrip p ≠ "").map pyStrip),
        body := pyStrip full_text }
    let sorted_categories :=
      sortByLe (fun a b => a.2.priority ≤ b.2.priority) CRITERIA_MAPPING
    let result0 : Report :=
      { evaluations := [], categories := [], categoryScores := [],
        totalScore := 0, totalJudgment := "NG", error := none }
    let result := sorted_categories.foldl (documentLoopStep document_structure) result0
    let total_score := calculate_average_score result.evaluations
    { result with
      totalScore := total_score
      totalJudgment := if 8/10 ≤ total_score then "OK" else "NG" }

/-- Written from the spec's words for comparison (claim about the total
score): the flat arithmetic mean of all recorded evaluation scores. -/
def specFlatMean (evaluations : List EvaluationData) : ℚ :=
  if evaluations = [] then 0
  else (evaluations.map fun e => e.score).sum / (evaluations.length : ℚ)

/-! ## Shared lemmas -/

/-- On any input that passes validation, the category loop skips every
category (each `_evaluate_category` call raises `AttributeError` on its
`category_info.applicable_to` read), so the report is empty, unscored and
error-free. -/
theorem evaluate_document_valid_eq (full_text summary : String)
    (paragraphs : List String) (title : String)
    (h1 : pyStrip full_text ≠ "") (h2 : pyStrip title ≠ "") :
    evaluate_document full_text summary paragraphs title =
      { evaluations := [], categories := [], categoryScores := [],
        totalScore := 0, totalJudgment := "NG", error := none } := by
  unfold evaluate_document
  rw [if_neg (not_or.mpr ⟨h1, h2⟩)]
  with_unfolding_all rfl

theorem data_append (a b : String) : (a ++ b).data = a.data ++ b.data := by
  rcases a with ⟨la⟩
  rcases b with ⟨lb⟩
  rfl

theorem mem_data_append_left (a b : String) (c : Char) (h : c ∈ a.data) :
    c ∈ (a ++ b).data := by
  rw [data_append]
  exact List.mem_append_left _ h

theorem mem_dropWhile_of_neg {α : Type} (p : α → Bool) (l : List α) (c : α)
    (hc : c ∈ l) (hpc : p c = false) : c ∈ l.dropWhile p := by
  induction l with
  | nil => cases hc
  | cons a t ih =>
    rw [List.dropWhile_cons]
    by_cases hpa : p a = true
    · rw [if_pos hpa]
      rcases List.mem_cons.mp hc with rfl | hct
      · rw [hpc] at hpa
        cases hpa
      · exact ih hct
    · rw [if_neg hpa]
      exact hc

/-- A string containing a non-whitespace character does not strip to the
empty string. -/
theorem pyStrip_ne_empty (s : String) (c : Char) (hc : c ∈ s.data)
    (hw : c.isWhitespace = false) : pyStrip s ≠ "" := by
  intro h
  have hnil : (((s.toList.dropWhile Char.isWhitespace).reverse.dropWhile
      Char.isWhitespace).reverse) = [] := congrArg String.data h
  have h1 : c ∈ s.toList.dropWhile Char.isWhitespace :=
    mem_dropWhile_of_neg _ _ _ hc hw
  have h2 : c ∈ (s.toList.dropWhile Char.isWhitespace).reverse :=
    List.mem_reverse.mpr h1
  have h3 : c ∈ (s.toList.dropWhile Char.isWhitespace).reverse.dropWhile
      Char.isWhitespace := mem_dropWhile_of_neg _ _ _ h2 hw
  have h4 : c ∈ ((s.toList.dropWhile Char.isWhitespace).reverse.dropWhile
      Char.isWhitespace).reverse := List.mem_reverse.mpr h3
  rw [hnil] at h4
  exact absurd h4 (List.not_mem_nil c)

/-- Whenever one of the four scope tags is present, the selected text is
non-empty: every branch's template starts with a labelled block whose
label character `【` survives the final strip. -/
theorem get_evaluation_text_ne_empty (doc : DocumentStructure)
    (applicable_to : List String)
    (h : "FULL_DOCUMENT" ∈ applicable_to ∨ "SUMMARY_ONLY" ∈ applicable_to ∨
      "SUMMARY_AND_STORY" ∈ applicable_to ∨ "STORY_AND_BODY" ∈ applicable_to) :
    get_evaluation_text doc applicable_to ≠ "" := by
  unfold get_evaluation_text
  by_cases h1 : "FULL_DOCUMENT" ∈ applicable_to
  · rw [if_pos h1]
    refine pyStrip_ne_empty _ '【' ?_ (by decide)
    repeat apply mem_data_append_left
    decide
  · rw [if_neg h1]
    by_cases h2 : "SUMMARY_ONLY" ∈ applicable_to
    · rw [if_pos h2]
      refine pyStrip_ne_empty _ '【' ?_ (by decide)
      repeat apply mem_data_append_left
      decide
    · rw [if_neg h2]
      by_cases h3 : "SUMMARY_AND_STORY" ∈ applicable_to
      · rw [if_pos h3]
        refine pyStrip_ne_empty _ '【' ?_ (by decide)
        repeat apply mem_data_append_left
        decide
      · rw [if_neg h3]
        by_cases h4 : "STORY_AND_BODY" ∈ applicable_to
        · rw [if_pos h4]
          refine pyStrip_ne_empty _ '【' ?_ (by decide)
          repeat apply mem_data_append_left
          decide
        · rcases h with h | h | h | h <;> contradiction

/-! ## Claims -/

/-- C1: for every input passing validation (non-blank `full_text` and
`title`, `paragraphs` a list), `evaluate_document` returns a report with
`evaluations = []`, `categories = []`, `categoryScores = []`,
`totalScore = 0.0`, `totalJudgment = "NG"` and no `error` entry: every
category's evaluation raises `AttributeError` on `applicable_to` (the
`CriteriaInfo` dataclass declares no such field) and the category loop
catches and skips it, so nothing is ever recorded. -/
theorem c1_every_category_skipped (full_text summary : String)
    (paragraphs : List String) (title : String)
    (h1 : pyStrip full_text ≠ "") (h2 : pyStrip title ≠ "") :
    evaluate_document full_text summary paragraphs title =
      { evaluations := [], categories := [], categoryScores := [],
        totalScore := 0, totalJudgment := "NG", error := none } :=
  evaluate_document_valid_eq full_text summary paragraphs title h1 h2

theorem c1_witness :
    evaluate_document "Body text." "A summary." ["p1", "p2"] "Title" =
      { evaluations := [], categories := [], categoryScores := [],
        totalScore := 0, totalJudgment := "NG", error := none } :=
  c1_every_category_skipped "Body text." "A summary." ["p1", "p2"] "Title"
    (by with_unfolding_all exact of_decide_eq_true rfl)
    (by with_unfolding_all exact of_decide_eq_true rfl)

/-- C2 counterexample: at a concrete criterion and document — where the
claim says a completed non-empty oracle reply would yield the score-1.0
"no issues" result — `_evaluate_single_criteria` instead returns the
score-0.0 "評価中にエラーが発生しました" result: its criteria lookup
`c['id']` raises `KeyError` before the oracle call is ever built, so the
claimed score-1.0 consequence never occurs. -/
theorem c2_counterexample :
    evaluate_single_criteria "c"
        { title := "T", summary := "S", story := "話", body := "本文" } =
      [{ criteria_id := "c", category := "c", score := 0,
         feedback := "• 評価中にエラーが発生しました\n• 該当箇所の評価を再度実行してください",
         target_text := "", position := none }] ∧
    ([{ criteria_id := "c", category := "c", score := 0,
        feedback := "• 評価中にエラーが発生しました\n• 該当箇所の評価を再度実行してください",
        target_text := "", position := none }] : List EvaluationResult) ≠
      [{ criteria_id := "c", category := "c", score := 1,
         feedback := "• 問題は見つかりませんでした\n• 評価基準を満たしています",
         target_text := "", position := none }] :=
  ⟨rfl, by with_unfolding_all exact of_decide_eq_true rfl⟩

/-- C2 amended: the `pass`-bodied second `_parse_evaluation_text` does
shadow the full parser, so the deployed parse method returns `None` for
every input; but the oracle call in `_evaluate_single_criteria` is never
reached — the criteria lookup raises `KeyError` (no `EVALUATION_CRITERIA`
entry has an `id` key), the outer `except` catches it, and the method
returns exactly one score-0.0 "評価中にエラーが発生しました" result for
every input, never the score-1.0 "no issues" result. -/
theorem c2_stub_and_unreachable_oracle :
    (∀ (evaluation_text criteria_id : String) (priority : Nat)
        (applicable_to : List String) (doc : DocumentStructure),
      parse_evaluation_text_deployed evaluation_text criteria_id priority
        applicable_to doc = none) ∧
    ∀ (criteria_id : String) (doc : DocumentStructure),
      evaluate_single_criteria criteria_id doc =
        [{ criteria_id := criteria_id, category := criteria_id, score := 0,
           feedback := "• 評価中にエラーが発生しました\n• 該当箇所の評価を再度実行してください",
           target_text := "", position := none }] :=
  ⟨fun _ _ _ _ _ => rfl, fun _ _ => rfl⟩

/-- C3: the full parser (first `_parse_evaluation_text` definition) maps
any reply containing the sentinel `問題なし` anywhere — whatever else the
reply contains — to exactly one result with score 1.0, the "no issues"
feedback, empty target text and no position. -/
theorem c3_null_sentinel_precedence (evaluation_text criteria_id : String)
    (priority : Nat) (applicable_to : List String) (doc : DocumentStructure)
    (h : pyContains evaluation_text "問題なし" = true) :
    parse_evaluation_text evaluation_text criteria_id priority applicable_to
        doc =
      [{ criteria_id := criteria_id, category := criteria_id, score := 1,
         feedback := "• 問題は見つかりませんでした\n• 評価基準を満たしています",
         target_text := "", position := none }] := by
  unfold parse_evaluation_text
  rw [if_pos h]

theorem c3_witness :
    parse_evaluation_text
        "前半は問題なしです。---対象文：X\n問題あり：重大な欠陥\n問題点：\n- 悪い点\n改善提案：\n- 直す"
        "c" 1 ["FULL_DOCUMENT"] { title := "", summary := "", story := "", body := "X" } =
      [{ criteria_id := "c", category := "c", score := 1,
         feedback := "• 問題は見つかりませんでした\n• 評価基準を満たしています",
         target_text := "", position := none }] :=
  c3_null_sentinel_precedence
    "前半は問題なしです。---対象文：X\n問題あり：重大な欠陥\n問題点：\n- 悪い点\n改善提案：\n- 直す"
    "c" 1 ["FULL_DOCUMENT"] { title := "", summary := "", story := "", body := "X" }
    (by with_unfolding_all exact of_decide_eq_true rfl)

/-- C9: when both `full_text` and `title` are empty or whitespace-only,
`evaluate_document` aborts before any category work with a populated
`error`, `totalScore = 0.0`, `totalJudgment = "NG"` and empty
`evaluations`. -/
theorem c9_blank_input_aborts (full_text summary : String)
    (paragraphs : List String) (title : String)
    (h1 : pyStrip full_text = "") (h2 : pyStrip title = "") :
    evaluate_document full_text summary paragraphs title =
      { evaluations := [], categories := [], categoryScores := [],
        totalScore := 0, totalJudgment := "NG",
        error := some "空の文書またはタイトルは評価できません" } := by
  unfold evaluate_document
  rw [if_pos (Or.inl h1)]

theorem c9_witness :
    evaluate_document "" "summary" ["p"] "  " =
      { evaluations := [], categories := [], categoryScores := [],
        totalScore := 0, totalJudgment := "NG",
        error := some "空の文書またはタイトルは評価できません" } :=
  c9_blank_input_aborts "" "summary" ["p"] "  "
    (by with_unfolding_all rfl) (by with_unfolding_all rfl)

/-- C10: on every document passing validation the returned report has
`totalScore` within `[0, 1]` and `totalJudgment = "OK"` exactly when
`totalScore ≥ 0.8`. -/
theorem c10_score_bounds_and_threshold (full_text summary : String)
    (paragraphs : List String) (title : String)
    (h1 : pyStrip full_text ≠ "") (h2 : pyStrip title ≠ "") :
    (0 ≤ (evaluate_document full_text summary paragraphs title).totalScore ∧
      (evaluate_document full_text summary paragraphs title).totalScore ≤ 1) ∧
    ((evaluate_document full_text summary paragraphs title).totalJudgment = "OK" ↔
      8/10 ≤ (evaluate_document full_text summary paragraphs title).totalScore) := by
  rw [evaluate_document_valid_eq full_text summary paragraphs title h1 h2]
  refine ⟨⟨le_refl 0, by norm_num⟩, ?_⟩
  constructor
  · intro h
    exact absurd h (by simp)
  · intro h
    exact absurd h (by norm_num)

theorem c10_witness :
    (0 ≤ (evaluate_document "Body." "" [] "T").totalScore ∧
      (evaluate_document "Body." "" [] "T").totalScore ≤ 1) ∧
    ((evaluate_document "Body." "" [] "T").totalJudgment = "OK" ↔
      8/10 ≤ (evaluate_document "Body." "" [] "T").totalScore) :=
  c10_score_bounds_and_threshold "Body." "" [] "T"
    (by with_unfolding_all exact of_decide_eq_true rfl)
    (by with_unfolding_all exact of_decide_eq_true rfl)

/-- The oracle-reply scenario fixed by the spec for the severity table. -/
def c4Scenario : String :=
  "対象文：Foo\n問題あり：重大な欠陥\n問題点：\n- bad\n改善提案：\n- fix"

/-- C4 counterexample: parsing the scenario reply yields one result whose
score is 0.4, not the 0.3 the claim states (the code computes
`1.0 - issue_weights["重大"] = 1.0 - 0.6`). -/
theorem c4_counterexample :
    (parse_evaluation_text c4Scenario "c" 1 ["FULL_DOCUMENT"]
        { title := "", summary := "", story := "", body := "" }).map
      EvaluationResult.score = [2/5] ∧ (2/5 : ℚ) ≠ 3/10 := by
  constructor
  · with_unfolding_all rfl
  · with_unfolding_all exact of_decide_eq_true rfl

/-- C4 amended: the scenario reply parses to exactly one Finding with
severity 重大 (MAJOR), score 0.4, target_text "Foo", feedback containing
"bad" and "fix"; the deduction table of the parser is
NONE → 1.0, 軽微 (MINOR) → 0.9, 中程度 (MODERATE) → 0.7,
重大 (MAJOR) → 0.4. -/
theorem c4_severity_table :
    (parse_evaluation_text c4Scenario "c" 1 ["FULL_DOCUMENT"]
        { title := "", summary := "", story := "", body := "" } =
      [{ criteria_id := "c", category := "c", score := 2/5,
         feedback := "【重大】重大な欠陥\n【問題点】\nbad\n【改善提案】\nfix",
         target_text := "Foo", position := none }]) ∧
    pyContains "【重大】重大な欠陥\n【問題点】\nbad\n【改善提案】\nfix" "bad" = true ∧
    pyContains "【重大】重大な欠陥\n【問題点】\nbad\n【改善提案】\nfix" "fix" = true ∧
    max 0 (1 - issueWeight "重大") = 2/5 ∧
    max 0 (1 - issueWeight "中程度") = 7/10 ∧
    max 0 (1 - issueWeight "軽微") = 9/10 ∧
    (parse_evaluation_text "問題なし" "c" 1 ["FULL_DOCUMENT"]
        { title := "", summary := "", story := "", body := "" }).map
      EvaluationResult.score = [1] := by
  refine ⟨?_, ?_, ?_, ?_, ?_, ?_, ?_⟩ <;> with_unfolding_all rfl

/-- Segment with the problem-points block before the suggestions block. -/
def c7SegmentA : String := "問題あり：欠陥\n問題点：\n- bad\n改善提案：\n- fix"

/-- The same fields with the suggestions block first. -/
def c7SegmentB : String := "問題あり：欠陥\n改善提案：\n- fix\n問題点：\n- bad"

/-- C7 counterexample: swapping the `改善提案：` and `問題点：` blocks
changes the parse result, so field parsing is not order-insensitive. -/
theorem c7_counterexample :
    parse_evaluation_text c7SegmentA "c" 1 ["FULL_DOCUMENT"]
        { title := "", summary := "", story := "", body := "" } ≠
      parse_evaluation_text c7SegmentB "c" 1 ["FULL_DOCUMENT"]
        { title := "", summary := "", story := "", body := "" } := by
  with_unfolding_all exact of_decide_eq_true rfl

/-- C7 amended: field parsing is order-sensitive.  The suggestions slice
runs from `改善提案：` to the end of the segment, so when that block comes
first it additionally swallows the following `問題点：` label line and its
bullets; severity and score are unaffected, only the assembled feedback
differs. -/
theorem c7_order_sensitivity :
    parse_evaluation_text c7SegmentA "c" 1 ["FULL_DOCUMENT"]
        { title := "", summary := "", story := "", body := "" } =
      [{ criteria_id := "c", category := "c", score := 7/10,
         feedback := "【中程度】欠陥\n【問題点】\nbad\n【改善提案】\nfix",
         target_text := "", position := none }] ∧
    parse_evaluation_text c7SegmentB "c" 1 ["FULL_DOCUMENT"]
        { title := "", summary := "", story := "", body := "" } =
      [{ criteria_id := "c", category := "c", score := 7/10,
         feedback := "【中程度】欠陥\n【問題点】\nbad\n【改善提案】\nfix\n問題点：\nbad",
         target_text := "", position := none }] := by
  refine ⟨?_, ?_⟩ <;> with_unfolding_all rfl

/-- C8 counterexample: selecting FULL_DOCUMENT over a structure whose
summary, story and body are all empty does not return the empty string —
the labelled blocks are emitted even when their text is empty. -/
theorem c8_counterexample :
    get_evaluation_text { title := "", summary := "", story := "", body := "" }
      ["FULL_DOCUMENT"] ≠ "" := by
  with_unfolding_all exact of_decide_eq_true rfl

/-- C8 amended: the selector always emits every labelled block of the
matched scope, including blocks whose underlying text is empty (so
FULL_DOCUMENT over an all-empty structure returns the three bare labels);
it returns the empty string exactly when `applicable_to` contains none of
the four scope tags; and on an empty selection `_evaluate_category`
records a terminal zero-scored result for the category's first criterion
when the category has at least one criterion, while with an empty
`criteria_ids` list its `criteria_ids[0]` read raises `IndexError` and the
category is skipped. -/
theorem c8_selector_behaviour :
    (∀ (doc : DocumentStructure) (applicable_to : List String),
      get_evaluation_text doc applicable_to = "" ↔
        ("FULL_DOCUMENT" ∉ applicable_to ∧ "SUMMARY_ONLY" ∉ applicable_to ∧
         "SUMMARY_AND_STORY" ∉ applicable_to ∧
         "STORY_AND_BODY" ∉ applicable_to)) ∧
    (∀ (category_id : String) (category_info : CriteriaInfo)
        (applicable_to : List String) (doc : DocumentStructure)
        (evalCriteria : String → DocumentStructure → List EvaluationResult)
        (c0 : String) (rest : List String),
      category_info.criteria_ids = c0 :: rest →
      get_evaluation_text doc applicable_to = "" →
      evaluate_category_body category_id category_info applicable_to doc
          evalCriteria =
        .ok [{ location := category_id,
               comments := [{ criteria_id := c0,
                              content := "• 評価対象テキストが空です\n• 文書の内容を確認してください",
                              score := 0 }] }]) ∧
    (∀ (category_id : String) (category_info : CriteriaInfo)
        (applicable_to : List String) (doc : DocumentStructure)
        (evalCriteria : String → DocumentStructure → List EvaluationResult),
      category_info.criteria_ids = [] →
      evaluate_category_body category_id category_info applicable_to doc
          evalCriteria = .exn "IndexError: list index out of range") ∧
    pyContains (get_evaluation_text
        { title := "", summary := "", story := "", body := "" }
        ["FULL_DOCUMENT"]) "【サマリー】" = true ∧
    pyContains (get_evaluation_text
        { title := "", summary := "", story := "", body := "" }
        ["FULL_DOCUMENT"]) "【本文】" = true := by
  refine ⟨?_, ?_, ?_, ?_, ?_⟩
  · intro doc applicable_to
    constructor
    · intro h
      exact ⟨fun hm => get_evaluation_text_ne_empty doc applicable_to (Or.inl hm) h,
        fun hm =>
          get_evaluation_text_ne_empty doc applicable_to (Or.inr (Or.inl hm)) h,
        fun hm =>
          get_evaluation_text_ne_empty doc applicable_to
            (Or.inr (Or.inr (Or.inl hm))) h,
        fun hm =>
          get_evaluation_text_ne_empty doc applicable_to
            (Or.inr (Or.inr (Or.inr hm))) h⟩
    · intro h
      obtain ⟨h1, h2, h3, h4⟩ := h
      unfold get_evaluation_text
      rw [if_neg h1, if_neg h2, if_neg h3, if_neg h4]
      with_unfolding_all rfl
  · intro category_id category_info applicable_to doc evalCriteria c0 rest hcrit h
    unfold evaluate_category_body
    rw [hcrit, if_pos h]
  · intro category_id category_info applicable_to doc evalCriteria hcrit
    unfold evaluate_category_body
    rw [hcrit]
    by_cases h : get_evaluation_text doc applicable_to = ""
    · rw [if_pos h]
    · rw [if_neg h]
      rfl
  · with_unfolding_all rfl
  · with_unfolding_all rfl

theorem c8_witness :
    get_evaluation_text { title := "T", summary := "S", story := "話", body := "B" }
      ["UNKNOWN_SCOPE"] = "" ∧
    evaluate_category_body "CAT"
        (mkCriteriaInfo "CAT" "カテゴリ" 1 ["c1"] 10) ["UNKNOWN_SCOPE"]
        { title := "T", summary := "S", story := "話", body := "B" }
        (fun _ _ => []) =
      .ok [{ location := "CAT",
             comments := [{ criteria_id := "c1",
                            content := "• 評価対象テキストが空です\n• 文書の内容を確認してください",
                            score := 0 }] }] ∧
    evaluate_category_body "CAT"
        (mkCriteriaInfo "CAT" "カテゴリ" 1 [] 10) ["UNKNOWN_SCOPE"]
        { title := "T", summary := "S", story := "話", body := "B" }
        (fun _ _ => []) = .exn "IndexError: list index out of range" :=
  have hsel := (c8_selector_behaviour.1
    { title := "T", summary := "S", story := "話", body := "B" }
    ["UNKNOWN_SCOPE"]).mpr
    ⟨by with_unfolding_all exact of_decide_eq_true rfl,
     by with_unfolding_all exact of_decide_eq_true rfl,
     by with_unfolding_all exact of_decide_eq_true rfl,
     by with_unfolding_all exact of_decide_eq_true rfl⟩
  ⟨hsel,
   c8_selector_behaviour.2.1 "CAT" (mkCriteriaInfo "CAT" "カテゴリ" 1 ["c1"] 10)
     ["UNKNOWN_SCOPE"] { title := "T", summary := "S", story := "話", body := "B" }
     (fun _ _ => []) "c1" [] rfl hsel,
   c8_selector_behaviour.2.2.1 "CAT" (mkCriteriaInfo "CAT" "カテゴリ" 1 [] 10)
     ["UNKNOWN_SCOPE"] { title := "T", summary := "S", story := "話", body := "B" }
     (fun _ _ => []) rfl⟩

/-- Three recorded evaluations: two in FULL_TEXT_RHETORIC (scores 1 and 0)
and one in SUMMARY_LOGIC_FLOW (score 1). -/
def c5Evaluations : List EvaluationData :=
  [{ categoryId := "FULL_TEXT_RHETORIC", criteriaId := "a", score := 1,
     feedback := "", location := "FULL_TEXT_RHETORIC" },
   { categoryId := "FULL_TEXT_RHETORIC", criteriaId := "b", score := 0,
     feedback := "", location := "FULL_TEXT_RHETORIC" },
   { categoryId := "SUMMARY_LOGIC_FLOW", criteriaId := "c", score := 1,
     feedback := "", location := "SUMMARY_LOGIC_FLOW" }]

/-- C5 counterexample: the total-score computation is not the flat mean of
the recorded scores: on `c5Evaluations` the code yields
`(0.5·1.0 + 1.0·1.2)/2.2 = 17/22`, while the flat mean is `2/3`. -/
theorem c5_counterexample :
    calculate_average_score c5Evaluations = 17/22 ∧
    specFlatMean c5Evaluations = 2/3 ∧
    calculate_average_score c5Evaluations ≠ specFlatMean c5Evaluations := by
  refine ⟨?_, ?_, ?_⟩
  · with_unfolding_all rfl
  · with_unfolding_all rfl
  · with_unfolding_all exact of_decide_eq_true rfl

/-- C5 amended: the report's totalScore is `calculate_average_score` of
the recorded evaluations, which averages the scores inside each category
and then renormalizes those per-category means by the fixed category
weights (1.0, 1.2, 1.1, 1.2, 1.1, 0.8; default 1.0), clamped to [0, 1] —
a second layer of category weighting, not a flat mean.  Shown here on two
FULL_TEXT_RHETORIC scores and one SUMMARY_LOGIC_FLOW score. -/
theorem c5_weighted_total_score (s1 s2 s3 : ℚ) :
    calculate_average_score
      [{ categoryId := "FULL_TEXT_RHETORIC", criteriaId := "a", score := s1,
         feedback := "", location := "FULL_TEXT_RHETORIC" },
       { categoryId := "FULL_TEXT_RHETORIC", criteriaId := "b", score := s2,
         feedback := "", location := "FULL_TEXT_RHETORIC" },
       { categoryId := "SUMMARY_LOGIC_FLOW", criteriaId := "c", score := s3,
         feedback := "", location := "SUMMARY_LOGIC_FLOW" }] =
      min (max (((s1 + s2) / 2 + (12/10) * s3) / (22/10)) 0) 1 ∧
    ∀ (full_text summary : String) (paragraphs : List String) (title : String),
      (evaluate_document full_text summary paragraphs title).totalScore =
        calculate_average_score
          (evaluate_document full_text summary paragraphs title).evaluations := by
  constructor
  · have h : calculate_average_score
        [{ categoryId := "FULL_TEXT_RHETORIC", criteriaId := "a", score := s1,
           feedback := "", location := "FULL_TEXT_RHETORIC" },
         { categoryId := "FULL_TEXT_RHETORIC", criteriaId := "b", score := s2,
           feedback := "", location := "FULL_TEXT_RHETORIC" },
         { categoryId := "SUMMARY_LOGIC_FLOW", criteriaId := "c", score := s3,
           feedback := "", location := "SUMMARY_LOGIC_FLOW" }] =
        min (max (((s1 + s2) / (2:ℚ) * 1 + (s3 / (1:ℚ) * (12/10) + 0)) /
          (1 + (12/10 + 0))) 0) 1 := by
      with_unfolding_all rfl
    rw [h]
    have harg : ((s1 + s2) / (2:ℚ) * 1 + (s3 / (1:ℚ) * (12/10) + 0)) /
        (1 + (12/10 + 0)) = ((s1 + s2) / 2 + (12/10) * s3) / (22/10) := by
      ring_nf
    rw [harg]
  · intro full_text summary paragraphs title
    unfold evaluate_document
    split
    · with_unfolding_all rfl
    · rfl

/-- The FULL_TEXT_RHETORIC catalog entry (two criteria, uniform weights). -/
def c6Category : CriteriaInfo :=
  mkCriteriaInfo "FULL_TEXT_RHETORIC" "全文修辞表現" 1
    ["最低限の修辞表現", "修辞表現"] 20

def c6Document : DocumentStructure :=
  { title := "T", summary := "S", story := "話", body := "B" }

/-- The evaluation set the claim posits for one category: the first
criterion recorded successful at score 1.0 (the no-issues feedback of
lines 483-488/679), the second criterion's evaluation errored and was
recorded at score 0.0 with the error feedback that both the per-criterion
`except` of `_evaluate_category` (lines 324-331) and the outer `except` of
`_evaluate_single_criteria` (lines 506-513) produce.  This is exactly the
dict shape `_calculate_category_score` consumes. -/
def c6ScenarioEvaluations : List EvaluationData :=
  [{ categoryId := "FULL_TEXT_RHETORIC", criteriaId := "最低限の修辞表現",
     score := 1,
     feedback := "• 問題は見つかりませんでした\n• 評価基準を満たしています",
     location := "FULL_TEXT_RHETORIC" },
   { categoryId := "FULL_TEXT_RHETORIC", criteriaId := "修辞表現",
     score := 0,
     feedback := "• 評価中にエラーが発生しました\n• 該当箇所の評価を再度実行してください",
     location := "FULL_TEXT_RHETORIC" }]

/-- C6 counterexample: `_calculate_category_score` keeps the errored,
zero-scored criterion's weight in the denominator, so the claim's scenario
of one successful criterion at 1.0 and one errored criterion scores 0.5
(50.0 on the report's 0-100 scale), not the claimed 1.0 (100.0). -/
theorem c6_counterexample :
    (calculate_category_score c6ScenarioEvaluations c6Category).score = 50 ∧
    (calculate_category_score c6ScenarioEvaluations c6Category).score ≠ 100 := by
  refine ⟨?_, ?_⟩
  · with_unfolding_all rfl
  · with_unfolding_all exact of_decide_eq_true rfl

/-- C6 amended: errored criteria are recorded as zero-scored evaluations
and kept in the weighted denominator, not excluded: the claim's scenario
(one criterion at 1.0, one errored at 0.0) scores 0.5 — reported as 50.0 —
with judgment NG; and in the deployed pipeline every criterion's
evaluation errors (the criteria lookup raises `KeyError`) and is recorded
as a zero-scored comment rather than dropped. -/
theorem c6_errored_criteria_counted :
    calculate_category_score c6ScenarioEvaluations c6Category =
      { categoryId := "FULL_TEXT_RHETORIC", categoryName := "全文修辞表現",
        score := 50, judgment := "NG" } ∧
    evaluate_category_body "FULL_TEXT_RHETORIC" c6Category ["FULL_DOCUMENT"]
        c6Document evaluate_single_criteria =
      .ok [{ location := "FULL_TEXT_RHETORIC",
             comments := [{ criteria_id := "最低限の修辞表現",
                            content := "• 評価中にエラーが発生しました\n• 該当箇所の評価を再度実行してください",
                            score := 0 },
                          { criteria_id := "修辞表現",
                            content := "• 評価中にエラーが発生しました\n• 該当箇所の評価を再度実行してください",
                            score := 0 }] }] := by
  refine ⟨?_, ?_⟩ <;> with_unfolding_all rfl

end StoryEval
